import Mathlib

/-!
Verification of the messaging core of the socialstratix backend.

The definitions below are a shallow embedding of the TypeScript source:

* `src/controllers/conversationController.ts` (unnamed part_012):
  `getConversations`, `getConversation`, `createConversation`, `getMessages`,
  `deleteConversation`.
* `src/controllers/messageController.ts`: `sendMessage`, `markAsRead`,
  `getUnreadCount`.
* `src/socket/messageHandler.ts` (tail of message.routes.ts file):
  `setupMessageHandlers` — the `sendMessage`, `typing` and `messageRead`
  socket event handlers, embedded as `gatewaySendMessage`, `gatewayTyping`
  and `gatewayMessageRead`.
* `src/socket/index.ts` (unnamed part_003): the connection/disconnection
  handlers and the `onlineUsers` map, embedded as `onConnect`/`onDisconnect`
  over `GwState`.
* `src/middleware/auth.ts` (unnamed part_006): `authenticateSocket` token
  selection, embedded as `selectToken`.
* `src/models/Conversation.ts` and the `messageSchema` (in the models file
  holding `SocialMediaProfile.ts`, after the document separator): the
  `Conversation` and `Message` document shapes and their defaults.

Mongo documents are lists of records; `findOne`/`findById` become
`List.find?` over insertion order, `findByIdAndUpdate` a guarded `List.map`,
`findOneAndDelete` a `List.eraseP`, `deleteMany` a `List.filter`.
Timestamps are naturals supplied by the caller (`now`), and generated
object ids are naturals supplied by the caller (`freshId`).
-/

namespace Stratix

abbrev UserId := Nat
abbrev ConvId := Nat
abbrev MsgId := Nat
abbrev Time := Nat

/-- The denormalized `lastMessage` subdocument of a conversation
(`Conversation.ts`, `lastMessageSchema`). -/
structure LastMessage where
  text : String
  senderId : UserId
  timestamp : Time
deriving DecidableEq, Repr

/-- A `conversations` document (`Conversation.ts`, `conversationSchema`).
`unreadCount` is the per-user counter map whose mongoose default is the
empty map `{}`; it is modelled as an association list. -/
structure Conversation where
  id : ConvId
  participants : List UserId
  lastMessage : Option LastMessage
  unreadCount : List (UserId × Nat)
  createdAt : Time
  updatedAt : Time
deriving DecidableEq, Repr

/-- A `messages` document (`messageSchema`, in the models source after the
document separator of `SocialMediaProfile.ts`): conversationId and senderId
required, text required (schema-trimmed), attachments an array of strings
with mongoose default `[]` when the key is omitted at `Message.create`,
isRead defaulting to false, readAt an optional date, and a `createdAt`
timestamp from `timestamps: true`. -/
structure Message where
  id : MsgId
  conversationId : ConvId
  senderId : UserId
  text : String
  attachments : List String
  isRead : Bool
  readAt : Option Time
  createdAt : Time
deriving DecidableEq, Repr

/-- The durable state both request paths operate on. `users` models the
`users` collection as the set of existing user ids (only existence is
consulted by the messaging core, via `User.findById`). -/
structure Store where
  users : List UserId
  conversations : List Conversation
  messages : List Message
deriving DecidableEq, Repr

/-- Error taxonomy of the handlers. On the synchronous path these are the
HTTP statuses 400 / 404 / 403; on the gateway path they are the
corresponding `{success:false, error}` callback strings. -/
inductive ApiErr
  | invalidArgument
  | notFound
  | forbidden
deriving DecidableEq, Repr

/-- HTTP status sent by the synchronous handlers for each error branch. -/
def ApiErr.status : ApiErr → Nat
  | .invalidArgument => 400
  | .notFound => 404
  | .forbidden => 403

/-- A socket.io room name: either a conversation room (`io.to(conversationId)`)
or a personal room keyed by user id (`io.to(userId)`). -/
inductive Room
  | conv (c : ConvId)
  | user (u : UserId)
deriving DecidableEq, Repr

/-- Server-to-client event payloads emitted by the store-level handlers. -/
inductive Payload
  | newMessage (m : Message)
  | messageRead (messageId : MsgId) (readAt : Option Time)
  | typing (userId : UserId) (conversationId : ConvId) (isTyping : Bool)
deriving DecidableEq, Repr

/-- One `io.to(room).emit(payload)` call. -/
structure Emit where
  room : Room
  payload : Payload
deriving DecidableEq, Repr

/-- `Conversation.findById(cid)`. -/
def findById (l : List Conversation) (cid : ConvId) : Option Conversation :=
  l.find? (fun c => c.id == cid)

/-- `Message.findById(mid)`. -/
def findMsgById (l : List Message) (mid : MsgId) : Option Message :=
  l.find? (fun m => m.id == mid)

/-- `conversation.participants.some(p => p.toString() === userId.toString())`. -/
def isParticipant (c : Conversation) (u : UserId) : Bool :=
  c.participants.contains u

/-- Whitespace stripped by `String.prototype.trim`. -/
def isJsWs (c : Char) : Bool :=
  c == ' ' || c == '\t' || c == '\n' || c == '\r'

/-- `text.trim()`: strip whitespace from both ends. -/
def jsTrim (s : String) : String :=
  ⟨((s.toList.dropWhile isJsWs).reverse.dropWhile isJsWs).reverse⟩

/-- `sendMessage` of `messageController.ts`. Returns the new store, the
socket emits performed (when `io` is set), and the response:
400 when `!conversationId || !text?.trim()`, 404 when the conversation is
absent, 403 when the caller is not a participant; on success the message is
created with `attachments: attachments || []` and the conversation's
`lastMessage`/`updatedAt` are updated. -/
def sendMessage (s : Store) (now : Time) (freshId : MsgId) (userId : UserId)
    (conversationId : Option ConvId) (text : Option String)
    (attachments : Option (List String)) :
    Store × List Emit × Except ApiErr Message :=
  match conversationId, text with
  | some cid, some t =>
    if jsTrim t == "" then
      (s, [], Except.error ApiErr.invalidArgument)
    else
      match findById s.conversations cid with
      | none => (s, [], Except.error ApiErr.notFound)
      | some conversation =>
        if isParticipant conversation userId then
          let m : Message :=
            ⟨freshId, cid, userId, jsTrim t, attachments.getD [], false, none, now⟩
          let convs := s.conversations.map fun c =>
            if c.id == cid then
              { c with lastMessage := some ⟨jsTrim t, userId, now⟩, updatedAt := now }
            else c
          let emits :=
            Emit.mk (Room.conv cid) (Payload.newMessage m) ::
              conversation.participants.map fun p =>
                Emit.mk (Room.user p) (Payload.newMessage m)
          ({ s with messages := s.messages ++ [m], conversations := convs },
           emits, Except.ok m)
        else
          (s, [], Except.error ApiErr.forbidden)
  | _, _ => (s, [], Except.error ApiErr.invalidArgument)

/-- The `sendMessage` socket handler of `messageHandler.ts`. Same branch
structure as the synchronous `sendMessage`, but the event payload carries
only `{conversationId, text}`: `Message.create` is called without an
`attachments` key, so the schema default `[]` applies. The `Except` models
the acknowledgment callback. -/
def gatewaySendMessage (s : Store) (now : Time) (freshId : MsgId) (userId : UserId)
    (conversationId : Option ConvId) (text : Option String) :
    Store × List Emit × Except ApiErr Message :=
  match conversationId, text with
  | some cid, some t =>
    if jsTrim t == "" then
      (s, [], Except.error ApiErr.invalidArgument)
    else
      match findById s.conversations cid with
      | none => (s, [], Except.error ApiErr.notFound)
      | some conversation =>
        if isParticipant conversation userId then
          let m : Message := ⟨freshId, cid, userId, jsTrim t, [], false, none, now⟩
          let convs := s.conversations.map fun c =>
            if c.id == cid then
              { c with lastMessage := some ⟨jsTrim t, userId, now⟩, updatedAt := now }
            else c
          let emits :=
            Emit.mk (Room.conv cid) (Payload.newMessage m) ::
              conversation.participants.map fun p =>
                Emit.mk (Room.user p) (Payload.newMessage m)
          ({ s with messages := s.messages ++ [m], conversations := convs },
           emits, Except.ok m)
        else
          (s, [], Except.error ApiErr.forbidden)
  | _, _ => (s, [], Except.error ApiErr.invalidArgument)

/-- `markAsRead` of `messageController.ts`: 404 when the message is absent,
400 when the caller is the sender, 403 when the caller is not a participant
of the owning conversation; on success sets `isRead`/`readAt` and emits
`messageRead` to the sender's personal room. -/
def markAsRead (s : Store) (now : Time) (userId : UserId) (messageId : MsgId) :
    Store × List Emit × Except ApiErr Message :=
  match findMsgById s.messages messageId with
  | none => (s, [], Except.error ApiErr.notFound)
  | some message =>
    if message.senderId == userId then
      (s, [], Except.error ApiErr.invalidArgument)
    else
      match s.conversations.find?
          (fun c => c.id == message.conversationId && isParticipant c userId) with
      | none => (s, [], Except.error ApiErr.forbidden)
      | some _ =>
        ({ s with messages := s.messages.map fun m =>
            if m.id == messageId then { m with isRead := true, readAt := some now }
            else m },
         [⟨Room.user message.senderId, Payload.messageRead messageId (some now)⟩],
         Except.ok { message with isRead := true, readAt := some now })

/-- The `messageRead` socket handler of `messageHandler.ts`. It checks only
that the message exists and that the requester is not the sender; there is
no participant check, no acknowledgment, and no error event: every failure
is a silent return. -/
def gatewayMessageRead (s : Store) (now : Time) (userId : UserId) (messageId : MsgId) :
    Store × List Emit :=
  match findMsgById s.messages messageId with
  | none => (s, [])
  | some message =>
    if message.senderId == userId then
      (s, [])
    else
      ({ s with messages := s.messages.map fun m =>
          if m.id == messageId then { m with isRead := true, readAt := some now }
          else m },
       [⟨Room.user message.senderId, Payload.messageRead messageId (some now)⟩])

/-- The `typing` socket handler: silently drops when the conversation is
absent or the sender is not a participant, else broadcasts to the
conversation room (excluding the sender's own socket at transport level). -/
def gatewayTyping (s : Store) (userId : UserId) (conversationId : ConvId)
    (isTyping : Bool) : List Emit :=
  match findById s.conversations conversationId with
  | none => []
  | some conversation =>
    if isParticipant conversation userId then
      [⟨Room.conv conversationId, Payload.typing userId conversationId isTyping⟩]
    else []

/-- The existing-conversation lookup of `createConversation`:
`{participants: {$all: [userId, participantId], $size: 2}}` — the array
contains both given ids and has exactly two entries. -/
def matchesPair (u p : UserId) (c : Conversation) : Bool :=
  (c.participants.contains u && c.participants.contains p) &&
    c.participants.length == 2

/-- `createConversation` of the conversation controller (part_012):
400 when `participantId` is missing, 404 when it does not resolve to a
user; otherwise returns the first conversation matching the `$all`/`$size`
lookup, or creates one with participants `[userId, participantId]` (the
mongoose defaults give it an empty `unreadCount` map and no `lastMessage`). -/
def createConversation (s : Store) (now : Time) (freshId : ConvId)
    (userId : UserId) (participantId : Option UserId) :
    Store × Except ApiErr Conversation :=
  match participantId with
  | none => (s, Except.error ApiErr.invalidArgument)
  | some pid =>
    if s.users.contains pid then
      match s.conversations.find? (matchesPair userId pid) with
      | some c => (s, Except.ok c)
      | none =>
        let c : Conversation := ⟨freshId, [userId, pid], none, [], now, now⟩
        ({ s with conversations := s.conversations ++ [c] }, Except.ok c)
    else
      (s, Except.error ApiErr.notFound)

/-- Newest-first comparison used by the storage query
`.sort({ createdAt: -1 })`. -/
def newerEq (a b : Message) : Prop :=
  b.createdAt ≤ a.createdAt

instance : DecidableRel newerEq := fun a b => Nat.decLe b.createdAt a.createdAt

instance : IsTotal Message newerEq :=
  ⟨fun a b => (Nat.le_total b.createdAt a.createdAt).imp id id⟩

instance : IsTrans Message newerEq :=
  ⟨fun _ _ _ hab hbc => Nat.le_trans hbc hab⟩

/-- `getMessages` of part_012: verifies membership with
`findOne({_id: id, participants: userId})` (merging absence and
non-membership into a single 404), fetches the conversation's messages
newest-first with skip/limit pagination, and reverses the page so the
oldest entry comes first. -/
def getMessages (s : Store) (userId : UserId) (cid : ConvId)
    (page limit : Nat) : Except ApiErr (List Message) :=
  match s.conversations.find? (fun c => c.id == cid && isParticipant c userId) with
  | none => Except.error ApiErr.notFound
  | some _ =>
    let msgs := s.messages.filter (fun m => m.conversationId == cid)
    let sorted := List.insertionSort newerEq msgs
    let pageMsgs := (sorted.drop ((page - 1) * limit)).take limit
    Except.ok pageMsgs.reverse

/-- `getConversations` of part_012 (read-only): the caller's conversations,
most recently updated first, paginated. -/
def getConversations (s : Store) (userId : UserId) (page limit : Nat) :
    List Conversation :=
  let mine := s.conversations.filter (fun c => isParticipant c userId)
  let sorted := List.insertionSort (fun a b => b.updatedAt ≤ a.updatedAt) mine
  (sorted.drop ((page - 1) * limit)).take limit

/-- `getConversation` of part_012 (read-only): 404 merges absence and
non-membership, as in `getMessages`. -/
def getConversation (s : Store) (userId : UserId) (cid : ConvId) :
    Except ApiErr Conversation :=
  match s.conversations.find? (fun c => c.id == cid && isParticipant c userId) with
  | none => Except.error ApiErr.notFound
  | some c => Except.ok c

/-- `getUnreadCount` of `messageController.ts` (read-only): counts unread
messages across the caller's conversations where the caller is not the
sender. -/
def getUnreadCount (s : Store) (userId : UserId) : Nat :=
  let convIds := (s.conversations.filter (fun c => isParticipant c userId)).map
    (fun c => c.id)
  (s.messages.filter fun m =>
    convIds.contains m.conversationId && m.senderId != userId && !m.isRead).length

/-- `deleteConversation` of part_012: `findOneAndDelete` on the first
conversation with the given id containing the caller, then `deleteMany` on
its messages; 404 when no such conversation exists. -/
def deleteConversation (s : Store) (userId : UserId) (cid : ConvId) :
    Store × Except ApiErr Unit :=
  match s.conversations.find? (fun c => c.id == cid && isParticipant c userId) with
  | none => (s, Except.error ApiErr.notFound)
  | some _ =>
    ({ s with
        conversations :=
          s.conversations.eraseP (fun c => c.id == cid && isParticipant c userId),
        messages := s.messages.filter (fun m => m.conversationId != cid) },
     Except.ok ())

/-!
### Connection layer (`src/socket/index.ts`, unnamed part_003)

`onlineUsers` is a `Map<string, string>` from user id to a single socket
id; a second connection of the same user overwrites the entry. Each socket
joins the personal room named by its user id. The `disconnect` handler
unconditionally deletes the map entry and broadcasts `userOffline` to every
other connected socket.
-/

/-- A live socket.io connection: its id, the authenticated user, and the
rooms it has joined (user-id-keyed personal rooms suffice here). -/
structure Sock where
  sid : Nat
  userId : UserId
  rooms : List Nat
deriving DecidableEq, Repr

/-- The presence events of `socket/index.ts`. -/
inductive PresenceEvent
  | userOnline (userId : UserId)
  | userOffline (userId : UserId)
deriving DecidableEq, Repr

/-- One event delivered to one socket. -/
structure Delivery where
  target : Nat
  event : PresenceEvent
deriving DecidableEq, Repr

/-- State of the connection layer: the `onlineUsers` map (user id to the
single stored socket id) and the set of live sockets. -/
structure GwState where
  onlineUsers : List (Nat × Nat)
  socks : List Sock
deriving DecidableEq, Repr

/-- `Map.prototype.set`: overwrite the entry for `k`, or append it. -/
def mapSet (m : List (Nat × Nat)) (k v : Nat) : List (Nat × Nat) :=
  if m.any (fun kv => kv.1 == k) then
    m.map (fun kv => if kv.1 == k then (k, v) else kv)
  else
    m ++ [(k, v)]

/-- `Map.prototype.delete`. -/
def mapDelete (m : List (Nat × Nat)) (k : Nat) : List (Nat × Nat) :=
  m.filter (fun kv => kv.1 != k)

/-- `socket.broadcast.emit(ev)`: deliver to every connected socket except
the emitting one. -/
def broadcastExcept (socks : List Sock) (sid : Nat) (ev : PresenceEvent) :
    List Delivery :=
  (socks.filter (fun t => t.sid != sid)).map (fun t => ⟨t.sid, ev⟩)

/-- `io.to(room).emit`: the sockets that receive an emit to `room`. -/
def deliverToRoom (g : GwState) (room : Nat) : List Sock :=
  g.socks.filter (fun t => t.rooms.contains room)

/-- The `connection` handler: `onlineUsers.set(userId, socket.id)`,
`socket.join(userId)`, then `socket.broadcast.emit(userOnline, userId)`. -/
def onConnect (g : GwState) (userId sid : Nat) : GwState × List Delivery :=
  let socks := g.socks ++ [⟨sid, userId, [userId]⟩]
  ({ onlineUsers := mapSet g.onlineUsers userId sid, socks := socks },
   broadcastExcept socks sid (PresenceEvent.userOnline userId))

/-- The `disconnect` handler of the socket identified by `sid`:
`onlineUsers.delete(userId)` and `socket.broadcast.emit(userOffline,
userId)`, with no check whether the user holds other connections. -/
def onDisconnect (g : GwState) (sid : Nat) : GwState × List Delivery :=
  match g.socks.find? (fun t => t.sid == sid) with
  | none => (g, [])
  | some sock =>
    let socks := g.socks.filter (fun t => t.sid != sid)
    ({ onlineUsers := mapDelete g.onlineUsers sock.userId, socks := socks },
     broadcastExcept socks sid (PresenceEvent.userOffline sock.userId))

/-!
### Handshake authentication (`src/middleware/auth.ts`, unnamed part_006)
-/

/-- The three places a handshake can carry a credential:
`socket.handshake.auth?.token`, `socket.handshake.headers?.authorization`,
`socket.handshake.query?.token`. -/
structure Handshake where
  authToken : Option String
  authorizationHeader : Option String
  queryToken : Option String
deriving DecidableEq, Repr

/-- JS `a || b` on optional strings: the right operand is taken when the
left is absent or the empty string (both falsy). -/
def jsOr (a b : Option String) : Option String :=
  match a with
  | none => b
  | some s => if s = "" then b else some s

/-- Bool test that `pat` occurs at the head of `s`. -/
def matchesAt : List Char → List Char → Bool
  | [], _ => true
  | _ :: _, [] => false
  | p :: ps, c :: cs => p == c && matchesAt ps cs

/-- Remove the first occurrence of `pat` from the character list
(`String.prototype.replace` with a string pattern and empty replacement). -/
def dropFirstOcc (pat : List Char) : List Char → List Char
  | [] => []
  | c :: cs =>
    if matchesAt pat (c :: cs) then (c :: cs).drop pat.length
    else c :: dropFirstOcc pat cs

/-- `header.replace('Bearer ', '')`. -/
def stripBearerOnce (s : String) : String :=
  ⟨dropFirstOcc "Bearer ".toList s.toList⟩

/-- The credential selection of `authenticateSocket`:
`socket.handshake.auth?.token || socket.handshake.headers?.authorization?.replace('Bearer ', '') || socket.handshake.query?.token`. -/
def selectToken (h : Handshake) : Option String :=
  jsOr h.authToken
    (jsOr (h.authorizationHeader.map stripBearerOnce) h.queryToken)

/-- The credential-precedence order asserted by §4.3 of the spec: header
first, then query parameter, then the handshake-metadata (auth) field.
Written from the claim, to be compared against `selectToken`. -/
def selectTokenSpecOrder (h : Handshake) : Option String :=
  jsOr (h.authorizationHeader.map stripBearerOnce)
    (jsOr h.queryToken h.authToken)

/-- `authenticateSocket` after token selection: reject when no (truthy)
token was found, when verification fails, or when the decoded user id does
not exist; otherwise the connection is authenticated as that user.
`verify` abstracts the external `verifyToken` JWT check. -/
def authenticateSocket (verify : String → Option UserId) (users : List UserId)
    (h : Handshake) : Except String UserId :=
  match selectToken h with
  | none => Except.error "Authentication error: No token provided"
  | some t =>
    if t = "" then Except.error "Authentication error: No token provided"
    else
      match verify t with
      | none => Except.error "Authentication error: Invalid token"
      | some uid =>
        if users.contains uid then Except.ok uid
        else Except.error "Authentication error: User not found"

/-!
### The operations as a transition system over the store

Used for the frame property of `unreadCount`: every operation of either
path, run in any order, neither writes the field (it stays at its mongoose
creation default, the empty map) nor reads it (erasing the field commutes
with every step).
-/

/-- One client-visible operation of either path. The read-only operations
(`listMsgs`, `listConvs`, `getConv`, `unread`, and the room-membership
events `gwJoin`/`gwLeave`, plus `gwTyping` whose only effect is an emit)
leave the store untouched by construction. -/
inductive StoreOp
  | createConv (now freshId : Nat) (userId : UserId) (participantId : Option UserId)
  | send (now freshId : Nat) (userId : UserId) (conversationId : Option ConvId)
      (text : Option String) (attachments : Option (List String))
  | gwSend (now freshId : Nat) (userId : UserId) (conversationId : Option ConvId)
      (text : Option String)
  | markReadOp (now : Nat) (userId : UserId) (messageId : MsgId)
  | gwRead (now : Nat) (userId : UserId) (messageId : MsgId)
  | gwTyping (userId : UserId) (conversationId : ConvId) (isTyping : Bool)
  | gwJoin (conversationId : ConvId)
  | gwLeave (conversationId : ConvId)
  | listMsgs (userId : UserId) (conversationId : ConvId) (page limit : Nat)
  | listConvs (userId : UserId) (page limit : Nat)
  | getConv (userId : UserId) (conversationId : ConvId)
  | unread (userId : UserId)
  | delConv (userId : UserId) (conversationId : ConvId)
deriving DecidableEq, Repr

/-- The store after one operation. -/
def stepOp (s : Store) : StoreOp → Store
  | .createConv n f u p => (createConversation s n f u p).1
  | .send n f u cid t a => (sendMessage s n f u cid t a).1
  | .gwSend n f u cid t => (gatewaySendMessage s n f u cid t).1
  | .markReadOp n u mid => (markAsRead s n u mid).1
  | .gwRead n u mid => (gatewayMessageRead s n u mid).1
  | .gwTyping _ _ _ => s
  | .gwJoin _ => s
  | .gwLeave _ => s
  | .listMsgs _ _ _ _ => s
  | .listConvs _ _ _ => s
  | .getConv _ _ => s
  | .unread _ => s
  | .delConv u cid => (deleteConversation s u cid).1

/-- The store after a sequence of operations. -/
def runOps (s : Store) (ops : List StoreOp) : Store :=
  ops.foldl stepOp s

/-- Forget every conversation's `unreadCount` map. -/
def eraseUnread (s : Store) : Store :=
  { s with conversations := s.conversations.map fun c => { c with unreadCount := [] } }

/-- Invariant of the connection layer: every live socket has joined the
personal room named by its own user id (established by `socket.join(userId)`
in the connection handler). -/
def GwInv (g : GwState) : Prop :=
  ∀ sock ∈ g.socks, sock.userId ∈ sock.rooms

end Stratix

deriving instance DecidableEq for Except

namespace Stratix

/-! ### Helper lemmas -/

lemma find?_append_none {α : Type} {p : α → Bool} {l₁ l₂ : List α}
    (h : l₁.find? p = none) : (l₁ ++ l₂).find? p = l₂.find? p := by
  rw [List.find?_append, h]; rfl

lemma matchesPair_iff (u p : UserId) (c : Conversation) :
    matchesPair u p c = true ↔
      u ∈ c.participants ∧ p ∈ c.participants ∧ c.participants.length = 2 := by
  simp [matchesPair, Bool.and_eq_true, List.elem_iff, and_assoc]

/-! ### C3: create-or-get conversation is idempotent -/

/-- Claim C3: for distinct users `u` and `p` with `p` a real user, two
sequential `createConversation(u, p)` calls (the second observing the
first's write) return the same conversation — same id, no duplicate
created — and that conversation's participant array is an exact two-element
set containing `u` and `p`. -/
theorem createConversation_idempotent (s : Store) (u p : UserId) (hne : u ≠ p)
    (hp : p ∈ s.users) (n1 f1 n2 f2 : Nat) (c : Conversation)
    (h1 : (createConversation s n1 f1 u (some p)).2 = Except.ok c) :
    createConversation (createConversation s n1 f1 u (some p)).1 n2 f2 u (some p)
      = ((createConversation s n1 f1 u (some p)).1, Except.ok c)
    ∧ u ∈ c.participants ∧ p ∈ c.participants ∧ c.participants.length = 2 := by
  cases hfind : s.conversations.find? (matchesPair u p) with
  | some c0 =>
    have hr1 : createConversation s n1 f1 u (some p) = (s, Except.ok c0) := by
      simp [createConversation, hp, hfind]
    rw [hr1] at h1 ⊢
    have hc0 : c0 = c := by simpa using h1
    subst hc0
    refine ⟨?_, (matchesPair_iff u p c0).mp (List.find?_some hfind)⟩
    simp [createConversation, hp, hfind]
  | none =>
    have hnewmatch : matchesPair u p ⟨f1, [u, p], none, [], n1, n1⟩ = true := by
      simp [matchesPair]
    have hr1 : createConversation s n1 f1 u (some p)
        = ({ s with conversations :=
              s.conversations ++ [⟨f1, [u, p], none, [], n1, n1⟩] },
           Except.ok ⟨f1, [u, p], none, [], n1, n1⟩) := by
      simp [createConversation, hp, hfind]
    rw [hr1] at h1 ⊢
    have hcn : (⟨f1, [u, p], none, [], n1, n1⟩ : Conversation) = c := by
      simpa using h1
    subst hcn
    refine ⟨?_, (matchesPair_iff u p _).mp hnewmatch⟩
    simp [createConversation, hp, hfind, hnewmatch]

/-- Witness for C3 at a concrete store: users 1 and 2 exist and no
conversation does; the second call returns the conversation the first call
created, unchanged. -/
theorem createConversation_idempotent_witness :
    createConversation
        (createConversation ⟨[1, 2], [], []⟩ 5 40 1 (some 2)).1 6 41 1 (some 2)
      = ((createConversation ⟨[1, 2], [], []⟩ 5 40 1 (some 2)).1,
          Except.ok ⟨40, [1, 2], none, [], 5, 5⟩)
    ∧ 1 ∈ ([1, 2] : List UserId) :=
  ⟨(createConversation_idempotent ⟨[1, 2], [], []⟩ 1 2 (by decide) (by decide)
      5 40 6 41 ⟨40, [1, 2], none, [], 5, 5⟩ (by decide)).1,
   by decide⟩

/-! ### C9: create-or-get with the requester as target degenerates -/

/-- Claim C9: calling `createConversation` with `participantId` equal to the
requester's own id makes the `$all:[u,u], $size:2` lookup degenerate to
"any two-participant conversation containing `u`": whenever the requester
already has any two-party conversation (here one with a different user
`w`), the call is not rejected, performs no write, and returns some
pre-existing two-participant conversation containing `u` — not necessarily
one with participants `[u, u]`. -/
theorem createConversation_self_degenerate (s : Store) (u w : UserId)
    (c : Conversation) (n f : Nat) (hc : c ∈ s.conversations)
    (hcp : c.participants = [u, w]) (hu : u ∈ s.users) :
    (createConversation s n f u (some u)).1 = s
    ∧ (∀ e, (createConversation s n f u (some u)).2 ≠ Except.error e)
    ∧ (∀ c0, (createConversation s n f u (some u)).2 = Except.ok c0 →
        c0 ∈ s.conversations ∧ u ∈ c0.participants ∧ c0.participants.length = 2) := by
  have huc : s.users.contains u = true := List.elem_iff.mpr hu
  have hmatch : matchesPair u u c = true := by
    rw [matchesPair_iff, hcp]
    exact ⟨List.mem_cons_self u [w], List.mem_cons_self u [w], rfl⟩
  have hsome : s.conversations.find? (matchesPair u u) ≠ none := by
    intro hnone
    exact absurd hmatch (by simpa using List.find?_eq_none.mp hnone c hc)
  cases hfind : s.conversations.find? (matchesPair u u) with
  | none => exact absurd hfind hsome
  | some c0 =>
    have hr : createConversation s n f u (some u) = (s, Except.ok c0) := by
      simp [createConversation, hu, hfind]
    rw [hr]
    have hp0 := (matchesPair_iff u u c0).mp (List.find?_some hfind)
    refine ⟨rfl, fun e h => by simp at h, fun c1 h => ?_⟩
    have hc1 : c0 = c1 := by simpa using h
    subst hc1
    exact ⟨List.mem_of_find?_eq_some hfind, hp0.1, hp0.2.2⟩

/-- Witness for C9: user 1 has an existing conversation with user 2; the
self-call `createConversation(1, 1)` returns without a write. -/
theorem createConversation_self_degenerate_witness :
    (createConversation ⟨[1, 2], [⟨10, [1, 2], none, [], 0, 0⟩], []⟩ 9 77 1 (some 1)).1
      = ⟨[1, 2], [⟨10, [1, 2], none, [], 0, 0⟩], []⟩ :=
  (createConversation_self_degenerate ⟨[1, 2], [⟨10, [1, 2], none, [], 0, 0⟩], []⟩
      1 2 ⟨10, [1, 2], none, [], 0, 0⟩ 9 77 (by decide) (by decide) (by decide)).1

/-! ### C5: listMessages pages are chronological -/

/-- Claim C5: every page `getMessages` returns to the client is in
chronological order — `createdAt` is non-decreasing along the returned
list, because the newest-first storage page is reversed before being
returned. -/
theorem getMessages_chronological (s : Store) (userId : UserId) (cid : ConvId)
    (page limit : Nat) (msgs : List Message)
    (h : getMessages s userId cid page limit = Except.ok msgs) :
    msgs.Pairwise (fun a b => a.createdAt ≤ b.createdAt) := by
  unfold getMessages at h
  cases hfind : s.conversations.find? (fun c => c.id == cid && isParticipant c userId) with
  | none => rw [hfind] at h; cases h
  | some c0 =>
    rw [hfind] at h
    have hmsgs : msgs =
        ((((List.insertionSort newerEq
              (s.messages.filter (fun m => m.conversationId == cid))).drop
            ((page - 1) * limit)).take limit)).reverse := by
      simpa using h.symm
    subst hmsgs
    rw [List.pairwise_reverse]
    have hsorted : (List.insertionSort newerEq
        (s.messages.filter (fun m => m.conversationId == cid))).Pairwise newerEq :=
      List.sorted_insertionSort newerEq _
    have hdrop : ((List.insertionSort newerEq
        (s.messages.filter (fun m => m.conversationId == cid))).drop
          ((page - 1) * limit)).Pairwise newerEq :=
      hsorted.sublist (List.drop_sublist ((page - 1) * limit) _)
    have htake : (((List.insertionSort newerEq
        (s.messages.filter (fun m => m.conversationId == cid))).drop
          ((page - 1) * limit)).take limit).Pairwise newerEq :=
      hdrop.sublist (List.take_sublist limit _)
    exact htake.imp (fun hab => hab)

/-- Witness for C5 on a concrete store holding two messages inserted
newest-first: the returned page is oldest-first. -/
theorem getMessages_chronological_witness :
    List.Pairwise (fun a b : Message => a.createdAt ≤ b.createdAt)
      [⟨101, 10, 2, "second", [], false, none, 8⟩,
       ⟨100, 10, 1, "first", [], false, none, 9⟩] :=
  getMessages_chronological
    ⟨[1, 2],
     [⟨10, [1, 2], none, [], 0, 0⟩],
     [⟨100, 10, 1, "first", [], false, none, 9⟩,
      ⟨101, 10, 2, "second", [], false, none, 8⟩]⟩
    1 10 1 50
    [⟨101, 10, 2, "second", [], false, none, 8⟩,
     ⟨100, 10, 1, "first", [], false, none, 9⟩]
    (by decide)

/-! ### C6: blank text is rejected with no write -/

/-- Claim C6: a send whose text is missing or empty after trimming fails
with InvalidArgument (HTTP 400 / `{success:false}` callback) on both the
synchronous path and the gateway path, leaving the store — in particular
the message log and every conversation's `lastMessage`/`updatedAt` —
untouched. -/
theorem empty_text_send_rejected (s : Store) (now freshId : Nat) (userId : UserId)
    (conversationId : Option ConvId) (text : Option String)
    (attachments : Option (List String))
    (h : text = none ∨ ∃ t, text = some t ∧ jsTrim t = "") :
    sendMessage s now freshId userId conversationId text attachments
      = (s, [], Except.error ApiErr.invalidArgument)
    ∧ gatewaySendMessage s now freshId userId conversationId text
      = (s, [], Except.error ApiErr.invalidArgument) := by
  rcases h with h | ⟨t, ht, htrim⟩
  · subst h
    cases conversationId <;> exact ⟨rfl, rfl⟩
  · subst ht
    cases conversationId with
    | none => exact ⟨rfl, rfl⟩
    | some cid =>
      constructor
      · unfold sendMessage
        simp [htrim]
      · unfold gatewaySendMessage
        simp [htrim]

/-- Witness for C6: whitespace-only text is rejected on both paths with the
store unchanged. -/
theorem empty_text_send_rejected_witness :
    sendMessage ⟨[1, 2], [⟨10, [1, 2], none, [], 0, 0⟩], []⟩ 7 102 1 (some 10)
        (some "   ") (some ["u"])
      = (⟨[1, 2], [⟨10, [1, 2], none, [], 0, 0⟩], []⟩, [],
         Except.error ApiErr.invalidArgument)
    ∧ gatewaySendMessage ⟨[1, 2], [⟨10, [1, 2], none, [], 0, 0⟩], []⟩ 7 102 1
        (some 10) (some "   ")
      = (⟨[1, 2], [⟨10, [1, 2], none, [], 0, 0⟩], []⟩, [],
         Except.error ApiErr.invalidArgument) :=
  empty_text_send_rejected ⟨[1, 2], [⟨10, [1, 2], none, [], 0, 0⟩], []⟩ 7 102 1
    (some 10) (some "   ") (some ["u"]) (Or.inr ⟨"   ", rfl, by decide⟩)

/-! ### C7: mark-read by the sender -/

/-- Counterexample to claim C7 as stated: sender 1 issues `messageRead` for
their own message on the gateway path. The handler neither mutates the
store nor produces any output at all — its complete result is `(store, [])`,
a silent drop with no Forbidden/InvalidArgument failure surfaced anywhere
(the handler has no acknowledgment and emits no error event), while the
synchronous path reports InvalidArgument (HTTP 400), not silence. -/
theorem self_mark_read_cex :
    gatewayMessageRead
        ⟨[1, 2], [⟨10, [1, 2], none, [], 0, 0⟩],
         [⟨100, 10, 1, "hi", [], false, none, 1⟩]⟩ 5 1 100
      = (⟨[1, 2], [⟨10, [1, 2], none, [], 0, 0⟩],
          [⟨100, 10, 1, "hi", [], false, none, 1⟩]⟩, ([] : List Emit))
    ∧ (markAsRead
        ⟨[1, 2], [⟨10, [1, 2], none, [], 0, 0⟩],
         [⟨100, 10, 1, "hi", [], false, none, 1⟩]⟩ 5 1 100).2.2
      = Except.error ApiErr.invalidArgument := by
  exact ⟨by decide, by decide⟩

/-- Claim C7 as amended: a markRead request by the message's own sender is
rejected without mutating `isRead` or `readAt` on both paths, but the
failure mode differs: the synchronous path fails with InvalidArgument
(HTTP 400) while the gateway path silently drops the event (no write, no
emit, and no error of any kind — the handler has no acknowledgment). -/
theorem self_mark_read_no_mutation (s : Store) (now : Nat) (userId : UserId)
    (messageId : MsgId) (m : Message)
    (hm : findMsgById s.messages messageId = some m)
    (hself : m.senderId = userId) :
    markAsRead s now userId messageId = (s, [], Except.error ApiErr.invalidArgument)
    ∧ gatewayMessageRead s now userId messageId = (s, []) := by
  constructor
  · simp [markAsRead, hm, hself]
  · simp [gatewayMessageRead, hm, hself]

/-- Witness for C7's amended theorem at a concrete store. -/
theorem self_mark_read_no_mutation_witness :
    markAsRead ⟨[1], [], [⟨200, 20, 3, "m", [], false, none, 2⟩]⟩ 9 3 200
      = (⟨[1], [], [⟨200, 20, 3, "m", [], false, none, 2⟩]⟩, [],
         Except.error ApiErr.invalidArgument)
    ∧ gatewayMessageRead ⟨[1], [], [⟨200, 20, 3, "m", [], false, none, 2⟩]⟩ 9 3 200
      = (⟨[1], [], [⟨200, 20, 3, "m", [], false, none, 2⟩]⟩, []) :=
  self_mark_read_no_mutation ⟨[1], [], [⟨200, 20, 3, "m", [], false, none, 2⟩]⟩
    9 3 200 ⟨200, 20, 3, "m", [], false, none, 2⟩ (by decide) (by decide)

/-! ### C10: gateway-sent messages have no attachments -/

/-- Claim C10: every message the gateway's send handler creates has an empty
attachments list (the event payload carries only conversationId and text,
so the schema default applies), while the synchronous send persists the
caller-supplied list verbatim. -/
theorem gateway_send_empty_attachments :
    (∀ (s : Store) (now freshId : Nat) (userId : UserId) (cid : Option ConvId)
        (t : Option String) (s1 : Store) (es : List Emit) (m : Message),
      gatewaySendMessage s now freshId userId cid t = (s1, es, Except.ok m) →
        m.attachments = [])
    ∧ (∀ (s : Store) (now freshId : Nat) (userId : UserId) (cid : Option ConvId)
        (t : Option String) (atts : List String) (s1 : Store) (es : List Emit)
        (m : Message),
      sendMessage s now freshId userId cid t (some atts) = (s1, es, Except.ok m) →
        m.attachments = atts) := by
  constructor
  · intro s now freshId userId cid t s1 es m h
    unfold gatewaySendMessage at h
    repeat' split at h
    all_goals simp_all
    rw [← h.2.2]
  · intro s now freshId userId cid t atts s1 es m h
    unfold sendMessage at h
    repeat' split at h
    all_goals simp_all
    rw [← h.2.2]

/-- Witness for C10: the same send succeeds on both paths; the gateway
message carries no attachments, the synchronous one carries the supplied
list. -/
theorem gateway_send_empty_attachments_witness :
    (⟨102, 10, 1, "ok", [], false, none, 7⟩ : Message).attachments = ([] : List String)
    ∧ (⟨102, 10, 1, "ok", ["u"], false, none, 7⟩ : Message).attachments = ["u"] :=
  ⟨gateway_send_empty_attachments.1
      ⟨[1, 2], [⟨10, [1, 2], none, [], 0, 0⟩], []⟩ 7 102 1 (some 10) (some " ok ")
      (gatewaySendMessage ⟨[1, 2], [⟨10, [1, 2], none, [], 0, 0⟩], []⟩ 7 102 1
        (some 10) (some " ok ")).1
      (gatewaySendMessage ⟨[1, 2], [⟨10, [1, 2], none, [], 0, 0⟩], []⟩ 7 102 1
        (some 10) (some " ok ")).2.1
      ⟨102, 10, 1, "ok", [], false, none, 7⟩ (by decide),
   gateway_send_empty_attachments.2
      ⟨[1, 2], [⟨10, [1, 2], none, [], 0, 0⟩], []⟩ 7 102 1 (some 10) (some " ok ")
      ["u"]
      (sendMessage ⟨[1, 2], [⟨10, [1, 2], none, [], 0, 0⟩], []⟩ 7 102 1
        (some 10) (some " ok ") (some ["u"])).1
      (sendMessage ⟨[1, 2], [⟨10, [1, 2], none, [], 0, 0⟩], []⟩ 7 102 1
        (some 10) (some " ok ") (some ["u"])).2.1
      ⟨102, 10, 1, "ok", ["u"], false, none, 7⟩ (by decide)⟩

/-! ### C4: handshake credential precedence -/

/-- Counterexample to claim C4 as stated: a handshake carrying both an
auth-field token and an authorization header. The claim's precedence
(header before auth field, per `selectTokenSpecOrder`) would verify the
header token, but `authenticateSocket` selects the auth-field token: the
auth-metadata field wins, not the header. -/
theorem token_precedence_cex :
    selectToken ⟨some "a", some "Bearer b", none⟩ = some "a"
    ∧ selectTokenSpecOrder ⟨some "a", some "Bearer b", none⟩ = some "b"
    ∧ ("a" : String) ≠ "b" :=
  ⟨by decide, by decide, by decide⟩

/-- Claim C4 as amended: the credential checked at handshake time is chosen
with the precedence auth-metadata field first, then the authorization
header (with its first `Bearer ` occurrence stripped), then the query
parameter; a falsy (absent or empty) candidate falls through to the next. -/
theorem token_precedence_auth_first :
    (∀ (h : Handshake) (t : String), h.authToken = some t → t ≠ "" →
      selectToken h = some t)
    ∧ (∀ (h : Handshake) (a : String),
        (h.authToken = none ∨ h.authToken = some "") →
        h.authorizationHeader = some a → stripBearerOnce a ≠ "" →
        selectToken h = some (stripBearerOnce a))
    ∧ (∀ (h : Handshake),
        (h.authToken = none ∨ h.authToken = some "") →
        (h.authorizationHeader = none ∨
          ∃ a, h.authorizationHeader = some a ∧ stripBearerOnce a = "") →
        selectToken h = h.queryToken) := by
  refine ⟨?_, ?_, ?_⟩
  · intro h t ht hne
    simp [selectToken, jsOr, ht, hne]
  · intro h a hauth hhdr hne
    rcases hauth with h0 | h0 <;>
      simp [selectToken, jsOr, h0, hhdr, hne]
  · intro h hauth hhdr
    rcases hhdr with h1 | ⟨a, h1, h2⟩ <;> rcases hauth with h0 | h0
    · simp [selectToken, jsOr, h0, h1]
    · simp [selectToken, jsOr, h0, h1]
    · simp [selectToken, jsOr, h0, h1, h2]
    · simp [selectToken, jsOr, h0, h1, h2]

/-- Witness for C4's amended theorem: the three precedence cases at
concrete handshakes. -/
theorem token_precedence_auth_first_witness :
    selectToken ⟨some "tok", some "Bearer h", some "q"⟩ = some "tok"
    ∧ selectToken ⟨none, some "Bearer h", some "q"⟩ = some "h"
    ∧ selectToken ⟨some "", some "Bearer ", some "q"⟩ = some "q" :=
  ⟨token_precedence_auth_first.1 ⟨some "tok", some "Bearer h", some "q"⟩ "tok"
      rfl (by decide),
   by
    have := token_precedence_auth_first.2.1 ⟨none, some "Bearer h", some "q"⟩
      "Bearer h" (Or.inl rfl) rfl (by decide)
    simpa using this,
   by
    have := token_precedence_auth_first.2.2 ⟨some "", some "Bearer ", some "q"⟩
      (Or.inr rfl) (Or.inr ⟨"Bearer ", rfl, by decide⟩)
    simpa using this⟩

/-! ### C1: operations by a non-participant -/

/-- Counterexample to claim C1 as stated, at a store whose only conversation
is 10 with participants 1 and 2, holding one unread message 100 from user 1,
with user 9 authenticated but not a participant. Contrary to the claim that
all three operations fail with Forbidden and perform no write: `getMessages`
fails with NotFound (HTTP 404, the lookup merges absence and
non-membership), and the gateway `messageRead` handler — which never checks
participation — performs the write, flipping the message to read. -/
theorem nonparticipant_access_cex :
    getMessages ⟨[1, 2, 9], [⟨10, [1, 2], none, [], 0, 0⟩],
        [⟨100, 10, 1, "hi", [], false, none, 1⟩]⟩ 9 10 1 50
      = Except.error ApiErr.notFound
    ∧ ApiErr.notFound ≠ ApiErr.forbidden
    ∧ (gatewayMessageRead ⟨[1, 2, 9], [⟨10, [1, 2], none, [], 0, 0⟩],
        [⟨100, 10, 1, "hi", [], false, none, 1⟩]⟩ 5 9 100).1.messages
      = [⟨100, 10, 1, "hi", [], true, some 5, 1⟩] :=
  ⟨by decide, by decide, by decide⟩

/-- Claim C1 as amended: for a user `u` who is a participant of no
conversation with id `cid`: `getMessages` fails with NotFound (not
Forbidden); synchronous and gateway sends fail with Forbidden and leave the
store untouched; the synchronous `markAsRead` (for a message of that
conversation not sent by `u`) fails with Forbidden and leaves the store
untouched; but the gateway `messageRead` handler, which has no participant
check, performs the write for any non-sender: it marks the message read and
notifies the sender's personal room. -/
theorem nonparticipant_access (s : Store) (u : UserId) (cid : ConvId)
    (hnp : ∀ c ∈ s.conversations, c.id = cid → u ∉ c.participants) :
    (∀ page limit, getMessages s u cid page limit = Except.error ApiErr.notFound)
    ∧ (∀ n f t atts c, findById s.conversations cid = some c → jsTrim t ≠ "" →
        sendMessage s n f u (some cid) (some t) atts
          = (s, [], Except.error ApiErr.forbidden))
    ∧ (∀ n f t c, findById s.conversations cid = some c → jsTrim t ≠ "" →
        gatewaySendMessage s n f u (some cid) (some t)
          = (s, [], Except.error ApiErr.forbidden))
    ∧ (∀ n mid m, findMsgById s.messages mid = some m → m.conversationId = cid →
        m.senderId ≠ u →
        markAsRead s n u mid = (s, [], Except.error ApiErr.forbidden))
    ∧ (∀ n mid m, findMsgById s.messages mid = some m → m.conversationId = cid →
        m.senderId ≠ u →
        gatewayMessageRead s n u mid
          = ({ s with messages := s.messages.map fun mm =>
                if mm.id == mid then { mm with isRead := true, readAt := some n }
                else mm },
             [⟨Room.user m.senderId, Payload.messageRead mid (some n)⟩])) := by
  have hfindnone : ∀ cid0, cid0 = cid →
      s.conversations.find? (fun c => c.id == cid0 && isParticipant c u) = none := by
    intro cid0 hcid0
    subst hcid0
    rw [List.find?_eq_none]
    intro c hc
    simp only [Bool.and_eq_true, beq_iff_eq, isParticipant, not_and]
    intro hid
    simpa using hnp c hc hid
  refine ⟨?_, ?_, ?_, ?_, ?_⟩
  · intro page limit
    simp [getMessages, hfindnone cid rfl]
  · intro n f t atts c hfind ht
    have hmem := List.mem_of_find?_eq_some hfind
    have hid : c.id = cid := by simpa using List.find?_some hfind
    have hpart : isParticipant c u = false := by
      simp only [isParticipant]
      simpa using hnp c hmem hid
    simp [sendMessage, ht, hfind, hpart]
  · intro n f t c hfind ht
    have hmem := List.mem_of_find?_eq_some hfind
    have hid : c.id = cid := by simpa using List.find?_some hfind
    have hpart : isParticipant c u = false := by
      simp only [isParticipant]
      simpa using hnp c hmem hid
    simp [gatewaySendMessage, ht, hfind, hpart]
  · intro n mid m hfind hcid hsender
    have hconvnone := hfindnone m.conversationId hcid
    simp [markAsRead, hfind, hsender, hconvnone]
  · intro n mid m hfind hcid hsender
    simp [gatewayMessageRead, hfind, hsender]

/-- Witness for C1's amended theorem: the NotFound list result and the
Forbidden synchronous markRead at the counterexample store. -/
theorem nonparticipant_access_witness :
    getMessages ⟨[1, 2, 9], [⟨10, [1, 2], none, [], 0, 0⟩],
        [⟨100, 10, 1, "hi", [], false, none, 1⟩]⟩ 9 10 1 50
      = Except.error ApiErr.notFound
    ∧ markAsRead ⟨[1, 2, 9], [⟨10, [1, 2], none, [], 0, 0⟩],
        [⟨100, 10, 1, "hi", [], false, none, 1⟩]⟩ 5 9 100
      = (⟨[1, 2, 9], [⟨10, [1, 2], none, [], 0, 0⟩],
          [⟨100, 10, 1, "hi", [], false, none, 1⟩]⟩, [],
         Except.error ApiErr.forbidden) :=
  ⟨(nonparticipant_access ⟨[1, 2, 9], [⟨10, [1, 2], none, [], 0, 0⟩],
      [⟨100, 10, 1, "hi", [], false, none, 1⟩]⟩ 9 10 (by decide)).1 1 50,
   (nonparticipant_access ⟨[1, 2, 9], [⟨10, [1, 2], none, [], 0, 0⟩],
      [⟨100, 10, 1, "hi", [], false, none, 1⟩]⟩ 9 10 (by decide)).2.2.2.1 5 100
     ⟨100, 10, 1, "hi", [], false, none, 1⟩ (by decide) (by decide) (by decide)⟩

/-! ### C2: offline broadcast and multi-device connections -/

/-- Counterexample to claim C2 as stated: user 7 connects twice (sockets 1
and 2), then socket 1 disconnects. Although user 7 still holds live socket
2, `userOffline 7` is broadcast — delivered to socket 2 itself — because
the disconnect handler deletes the single-slot map entry and broadcasts
unconditionally. -/
theorem presence_offline_cex :
    (onDisconnect ((onConnect ((onConnect ⟨[], []⟩ 7 1).1) 7 2).1) 1).2
      = [⟨2, PresenceEvent.userOffline 7⟩]
    ∧ ((onDisconnect ((onConnect ((onConnect ⟨[], []⟩ 7 1).1) 7 2).1) 1).1.socks.map
        Sock.userId) = [7] :=
  ⟨by decide, by decide⟩

/-- Claim C2 as amended: the disconnect of any live socket broadcasts
`userOffline` for that socket's user to every remaining socket, with no
regard to the user's other live connections (the `onlineUsers` map keeps a
single socket id per user and the handler never checks it). The
multi-device delivery half of the claim does hold: connection and
disconnection preserve the invariant that every socket is in its user's
personal room, so an emit to a user's personal room reaches all of that
user's live sockets. -/
theorem presence_offline_unconditional :
    (∀ (g : GwState) (sid : Nat) (sock : Sock),
      g.socks.find? (fun t => t.sid == sid) = some sock →
      ∀ t ∈ (onDisconnect g sid).1.socks,
        (⟨t.sid, PresenceEvent.userOffline sock.userId⟩ : Delivery)
          ∈ (onDisconnect g sid).2)
    ∧ (∀ (g : GwState) (u sid : Nat), GwInv g → GwInv (onConnect g u sid).1)
    ∧ (∀ (g : GwState) (sid : Nat), GwInv g → GwInv (onDisconnect g sid).1)
    ∧ (∀ (g : GwState) (u : Nat), GwInv g →
        ∀ sock ∈ g.socks, sock.userId = u → sock ∈ deliverToRoom g u) := by
  refine ⟨?_, ?_, ?_, ?_⟩
  · intro g sid sock hfind t ht
    simp only [onDisconnect, hfind] at ht ⊢
    simp only [broadcastExcept, List.mem_map, List.mem_filter]
    exact ⟨t, ⟨List.mem_filter.mp ht, (List.mem_filter.mp ht).2⟩, rfl⟩
  · intro g u sid hinv sock hsock
    rcases List.mem_append.mp hsock with h0 | h0
    · exact hinv sock h0
    · have := List.mem_singleton.mp h0
      subst this
      simp
  · intro g sid hinv sock hsock
    cases hfind : g.socks.find? (fun t => t.sid == sid) with
    | none =>
      rw [onDisconnect] at hsock
      rw [hfind] at hsock
      exact hinv sock hsock
    | some s0 =>
      rw [onDisconnect] at hsock
      rw [hfind] at hsock
      exact hinv sock (List.mem_filter.mp hsock).1
  · intro g u hinv sock hsock hu
    rw [deliverToRoom, List.mem_filter]
    exact ⟨hsock, by simpa using hu ▸ hinv sock hsock⟩

/-- Witness for C2's amended theorem: at the two-connection state of the
counterexample, the surviving socket 2 of user 7 receives the offline
broadcast for its own user. -/
theorem presence_offline_unconditional_witness :
    (⟨2, PresenceEvent.userOffline 7⟩ : Delivery)
      ∈ (onDisconnect ⟨[(7, 2)], [⟨1, 7, [7]⟩, ⟨2, 7, [7]⟩]⟩ 1).2 :=
  presence_offline_unconditional.1 ⟨[(7, 2)], [⟨1, 7, [7]⟩, ⟨2, 7, [7]⟩]⟩ 1
    ⟨1, 7, [7]⟩ (by decide) ⟨2, 7, [7]⟩ (by decide)

/-! ### C8: the unreadCount field is dead

Helper lemmas: erasing every conversation map commutes with each operation
(the field is never read), and each operation preserves the all-empty
invariant (the field is never written).
-/

lemma find?_conv_eraseUnread (p : Conversation → Bool) (s : Store)
    (hp : (p ∘ fun c => { c with unreadCount := [] }) = p) :
    (eraseUnread s).conversations.find? p
      = Option.map (fun c => { c with unreadCount := [] }) (s.conversations.find? p) := by
  show (s.conversations.map fun c => { c with unreadCount := [] }).find? p = _
  rw [List.find?_map, hp]

lemma send_erase_comm (s : Store) (n f : Nat) (u : UserId) (cid : Option ConvId)
    (t : Option String) (a : Option (List String)) :
    (sendMessage (eraseUnread s) n f u cid t a).1
      = eraseUnread (sendMessage s n f u cid t a).1 := by
  cases cid with
  | none => cases t <;> rfl
  | some cid0 =>
    cases t with
    | none => rfl
    | some t0 =>
      unfold sendMessage
      by_cases htrim : (jsTrim t0 == "") = true
      · simp [htrim]
      · have hfm : findById (eraseUnread s).conversations cid0
            = Option.map (fun c => { c with unreadCount := [] })
                (findById s.conversations cid0) :=
          find?_conv_eraseUnread (fun c => c.id == cid0) s rfl
        simp only [htrim, if_false, Bool.false_eq_true]
        cases hfind : findById s.conversations cid0 with
        | none => simp [hfm, hfind]
        | some c0 =>
          simp only [hfm, hfind, Option.map, isParticipant]
          by_cases hpart : u ∈ c0.participants
          · simp [hpart, eraseUnread]
            intro a _
            by_cases hid : a.id = cid0 <;> simp [hid]
          · simp [hpart]


lemma gwSend_erase_comm (s : Store) (n f : Nat) (u : UserId) (cid : Option ConvId)
    (t : Option String) :
    (gatewaySendMessage (eraseUnread s) n f u cid t).1
      = eraseUnread (gatewaySendMessage s n f u cid t).1 := by
  cases cid with
  | none => cases t <;> rfl
  | some cid0 =>
    cases t with
    | none => rfl
    | some t0 =>
      unfold gatewaySendMessage
      by_cases htrim : (jsTrim t0 == "") = true
      · simp [htrim]
      · have hfm : findById (eraseUnread s).conversations cid0
            = Option.map (fun c => { c with unreadCount := [] })
                (findById s.conversations cid0) :=
          find?_conv_eraseUnread (fun c => c.id == cid0) s rfl
        simp only [htrim, if_false, Bool.false_eq_true]
        cases hfind : findById s.conversations cid0 with
        | none => simp [hfm, hfind]
        | some c0 =>
          simp only [hfm, hfind, Option.map, isParticipant]
          by_cases hpart : u ∈ c0.participants
          · simp [hpart, eraseUnread]
            intro a _
            by_cases hid : a.id = cid0 <;> simp [hid]
          · simp [hpart]

lemma markRead_erase_comm (s : Store) (n : Nat) (u : UserId) (mid : MsgId) :
    (markAsRead (eraseUnread s) n u mid).1 = eraseUnread (markAsRead s n u mid).1 := by
  unfold markAsRead
  have hfind2 : findMsgById (eraseUnread s).messages mid
      = findMsgById s.messages mid := rfl
  cases hfind : findMsgById s.messages mid with
  | none => simp [hfind2, hfind]
  | some m =>
    simp only [hfind2, hfind]
    by_cases hsender : m.senderId = u
    · simp [hsender]
    · have hsb : ¬(m.senderId == u) = true := by simpa using hsender
      have hfc := find?_conv_eraseUnread
        (fun c => c.id == m.conversationId && isParticipant c u) s rfl
      cases hconv : s.conversations.find?
          (fun c => c.id == m.conversationId && isParticipant c u) with
      | none =>
        simp only [hsb, if_false, hfc, hconv, Option.map]
        simp [eraseUnread]
      | some cv =>
        simp only [hsb, if_false, hfc, hconv, Option.map]
        simp [eraseUnread]

lemma gwRead_erase_comm (s : Store) (n : Nat) (u : UserId) (mid : MsgId) :
    (gatewayMessageRead (eraseUnread s) n u mid).1
      = eraseUnread (gatewayMessageRead s n u mid).1 := by
  unfold gatewayMessageRead
  have hfind2 : findMsgById (eraseUnread s).messages mid
      = findMsgById s.messages mid := rfl
  cases hfind : findMsgById s.messages mid with
  | none => simp [hfind2, hfind]
  | some m =>
    simp only [hfind2, hfind]
    by_cases hsender : m.senderId = u
    · simp [hsender]
    · simp [hsender, eraseUnread]

lemma createConv_erase_comm (s : Store) (n f : Nat) (u : UserId)
    (p : Option UserId) :
    (createConversation (eraseUnread s) n f u p).1
      = eraseUnread (createConversation s n f u p).1 := by
  cases p with
  | none => rfl
  | some pid =>
    unfold createConversation
    have husers : (eraseUnread s).users = s.users := rfl
    rw [husers]
    have hfc := find?_conv_eraseUnread (matchesPair u pid) s rfl
    by_cases hu : pid ∈ s.users
    · cases hfind : s.conversations.find? (matchesPair u pid) with
      | some c0 =>
        simp only [hfc, hfind, Option.map]
        simp [hu, eraseUnread]
      | none =>
        simp only [hfc, hfind, Option.map]
        simp [hu, eraseUnread]
    · simp [hu]

lemma delConv_erase_comm (s : Store) (u : UserId) (cid : ConvId) :
    (deleteConversation (eraseUnread s) u cid).1
      = eraseUnread (deleteConversation s u cid).1 := by
  unfold deleteConversation
  have hfc := find?_conv_eraseUnread (fun c => c.id == cid && isParticipant c u) s rfl
  cases hfind : s.conversations.find? (fun c => c.id == cid && isParticipant c u) with
  | none => simp [hfc, hfind]
  | some c0 =>
    simp only [hfc, hfind, Option.map]
    have herase : (s.conversations.map fun c => { c with unreadCount := [] }).eraseP
        (fun c => c.id == cid && isParticipant c u)
      = (s.conversations.eraseP (fun c => c.id == cid && isParticipant c u)).map
          (fun c => { c with unreadCount := [] }) := by
      rw [List.eraseP_map]
      rfl
    simp [eraseUnread, herase]

lemma unread_step (s : Store) (op : StoreOp)
    (h : ∀ c ∈ s.conversations, c.unreadCount = []) :
    ∀ c ∈ (stepOp s op).conversations, c.unreadCount = [] := by
  cases op with
  | createConv n f u p =>
    intro c hc
    replace hc : c ∈ (createConversation s n f u p).1.conversations := hc
    unfold createConversation at hc
    repeat' split at hc
    all_goals first
      | exact h c hc
      | (rcases List.mem_append.mp hc with hc0 | hc0
         · exact h c hc0
         · have hceq := List.mem_singleton.mp hc0
           subst hceq
           rfl)
  | send n f u cid t a =>
    intro c hc
    replace hc : c ∈ (sendMessage s n f u cid t a).1.conversations := hc
    unfold sendMessage at hc
    repeat' split at hc
    all_goals first
      | exact h c hc
      | (rcases List.mem_map.mp hc with ⟨c0, hc0, rfl⟩
         split
         · exact h c0 hc0
         · exact h c0 hc0)
  | gwSend n f u cid t =>
    intro c hc
    replace hc : c ∈ (gatewaySendMessage s n f u cid t).1.conversations := hc
    unfold gatewaySendMessage at hc
    repeat' split at hc
    all_goals first
      | exact h c hc
      | (rcases List.mem_map.mp hc with ⟨c0, hc0, rfl⟩
         split
         · exact h c0 hc0
         · exact h c0 hc0)
  | markReadOp n u mid =>
    intro c hc
    replace hc : c ∈ (markAsRead s n u mid).1.conversations := hc
    unfold markAsRead at hc
    repeat' split at hc
    all_goals exact h c hc
  | gwRead n u mid =>
    intro c hc
    replace hc : c ∈ (gatewayMessageRead s n u mid).1.conversations := hc
    unfold gatewayMessageRead at hc
    repeat' split at hc
    all_goals exact h c hc
  | gwTyping u cid b => exact h
  | gwJoin cid => exact h
  | gwLeave cid => exact h
  | listMsgs u cid p l => exact h
  | listConvs u p l => exact h
  | getConv u cid => exact h
  | unread u => exact h
  | delConv u cid =>
    intro c hc
    replace hc : c ∈ (deleteConversation s u cid).1.conversations := hc
    unfold deleteConversation at hc
    repeat' split at hc
    all_goals first
      | exact h c hc
      | exact h c ((List.eraseP_sublist _).mem hc)

/-- Claim C8: the `unreadCount` field is dead. Starting from any store
whose conversations all carry the creation-time default (the empty map),
any sequence of operations of either path — create, send (both paths),
mark-read (both paths), list, typing, join/leave, unread-count, delete —
leaves every conversation's `unreadCount` at the empty map; moreover no
operation reads the field: erasing it from every conversation commutes
with every step. -/
theorem unreadCount_dead_field (s : Store) (ops : List StoreOp)
    (h : s.conversations.all
      (fun c => c.unreadCount == ([] : List (UserId × Nat))) = true) :
    ((runOps s ops).conversations.all
      (fun c => c.unreadCount == ([] : List (UserId × Nat))) = true)
    ∧ (∀ (s0 : Store) (op : StoreOp),
        stepOp (eraseUnread s0) op = eraseUnread (stepOp s0 op)) := by
  constructor
  · have hmain : ∀ (ops0 : List StoreOp) (s0 : Store),
        (∀ c ∈ s0.conversations, c.unreadCount = []) →
        ∀ c ∈ (runOps s0 ops0).conversations, c.unreadCount = [] := by
      intro ops0
      induction ops0 with
      | nil => intro s0 hs; simpa [runOps] using hs
      | cons op rest ih =>
        intro s0 hs
        have hstep : runOps s0 (op :: rest) = runOps (stepOp s0 op) rest := rfl
        rw [hstep]
        exact ih _ (unread_step s0 op hs)
    rw [List.all_eq_true]
    intro c hc
    rw [beq_iff_eq]
    refine hmain ops s ?_ c hc
    intro c0 hc0
    exact beq_iff_eq.mp (List.all_eq_true.mp h c0 hc0)
  · intro s0 op
    cases op with
    | createConv n f u p => exact createConv_erase_comm s0 n f u p
    | send n f u cid t a => exact send_erase_comm s0 n f u cid t a
    | gwSend n f u cid t => exact gwSend_erase_comm s0 n f u cid t
    | markReadOp n u mid => exact markRead_erase_comm s0 n u mid
    | gwRead n u mid => exact gwRead_erase_comm s0 n u mid
    | gwTyping u cid b => rfl
    | gwJoin cid => rfl
    | gwLeave cid => rfl
    | listMsgs u cid p l => rfl
    | listConvs u p l => rfl
    | getConv u cid => rfl
    | unread u => rfl
    | delConv u cid => exact delConv_erase_comm s0 u cid

/-- Witness for C8: a concrete run — create a conversation, send on both
paths, mark read on both paths — leaves the unreadCount map empty. -/
theorem unreadCount_dead_field_witness :
    (runOps ⟨[1, 2], [], []⟩
        [StoreOp.createConv 0 10 1 (some 2),
         StoreOp.send 1 100 1 (some 10) (some "hi") (some ["a"]),
         StoreOp.gwSend 2 101 2 (some 10) (some "yo"),
         StoreOp.gwRead 3 2 100,
         StoreOp.markReadOp 4 1 101]).conversations.all
      (fun c => c.unreadCount == ([] : List (UserId × Nat))) = true :=
  (unreadCount_dead_field ⟨[1, 2], [], []⟩
      [StoreOp.createConv 0 10 1 (some 2),
       StoreOp.send 1 100 1 (some 10) (some "hi") (some ["a"]),
       StoreOp.gwSend 2 101 2 (some 10) (some "yo"),
       StoreOp.gwRead 3 2 100,
       StoreOp.markReadOp 4 1 101] (by decide)).1

end Stratix
